import Mathlib

/-!
Verification of the nutri-vision text-analysis pipeline.

This file is a shallow embedding, in Lean 4, of the extraction-and-resolution
pipeline implemented in `nlp/spacy_extractor.py` and `main.py`:

* `parse_number`, `normalize_unit`, `calculate_confidence`,
  `group_entities_by_proximity`, `extract_item_from_group` from
  `nlp/spacy_extractor.py`;
* `get_mock_nutrition_by_food_name`, `process_text_analysis`,
  `calculate_totals` and the failure branch of `analyze_text` from `main.py`.

Modelling conventions:

* Python floats are modelled as rationals (`ℚ`); all numeric literals of the
  program are exact decimals, so no rounding behaviour of binary floats is
  relevant to the properties proved here.
* External collaborators (the spaCy entity source, the `word2number` library,
  the USDA search and detail endpoints) are passed in as function parameters
  returning `Option` values; `none` models "the call failed / raised / found
  nothing".  The repository's own code catches every exception these can
  raise, which the embedding mirrors by total functions on `Option`.
* Python exceptions inside per-item processing are modelled with `Option`:
  a `none` from a validating constructor models a raised `ValidationError`
  that the surrounding `except` swallows.
* `str.lower` is modelled on the ASCII range (the only range exercised by the
  program's tables); `str.strip` strips the ASCII whitespace characters.
-/

/- Batteries marks the `Rat` field operations irreducible, which blocks
kernel evaluation of concrete rational arithmetic in `decide`; restore the
default reducibility for them. -/
unseal Rat.mul Rat.add Rat.sub Rat.inv Rat.ofScientific

namespace NutriVision

/-! ## Python string primitives -/

/-- Characters stripped by Python's `str.strip()` (ASCII part). -/
def pyIsSpace (c : Char) : Bool :=
  c = ' ' || c = '\t' || c = '\n' || c = '\r' || c = '\x0b' || c = '\x0c'

/-- Remove leading and trailing whitespace from a character list, as
Python's `str.strip()` does. -/
def stripChars (l : List Char) : List Char :=
  List.rdropWhile pyIsSpace (List.dropWhile pyIsSpace l)

/-- Python `str.strip()`. -/
def pyStrip (s : String) : String :=
  ⟨stripChars s.data⟩

/-- Python `str.lower()` (ASCII range; `Char.toLower` only lowers basic
latin letters, which is all the program's tables use). -/
def pyLower (s : String) : String :=
  ⟨s.data.map Char.toLower⟩

/-- Python's substring containment `a in b` on strings. -/
def strIn (a b : String) : Bool :=
  decide (a.data <:+: b.data)

/-- Python's `s.split(sep)` for a one-character separator: splits at every
occurrence, keeping empty parts (`"".split` gives one empty part). -/
def splitOnChar (c : Char) : List Char → List (List Char)
  | [] => [[]]
  | x :: xs =>
    let r := splitOnChar c xs
    if x = c then [] :: r
    else
      match r with
      | y :: ys => (x :: y) :: ys
      | [] => [[x]]

/-- Value of a digit run, most significant first. -/
def natOfDigits (l : List Char) : ℕ :=
  l.foldl (fun n c => 10 * n + (c.toNat - 48)) 0

/-- Core of Python's `float()` on an already stripped string: an optional
sign, then an integer part and/or a decimal point with a fractional part,
then an optional exponent.  Forms the program never produces
(`inf`, `nan`, digit underscores) are treated as parse failures. -/
def pyFloatParseCore (cs : List Char) : Option ℚ :=
  let (sign, rest) :=
    match cs with
    | '-' :: r => ((-1 : ℚ), r)
    | '+' :: r => ((1 : ℚ), r)
    | r => ((1 : ℚ), r)
  let intPart := rest.takeWhile Char.isDigit
  let rest₁ := rest.dropWhile Char.isDigit
  let readExp : List Char → Option ℚ → Option ℚ := fun ecs mant =>
    match mant with
    | none => none
    | some m =>
      let (esign, er) :=
        match ecs with
        | '-' :: r => ((-1 : ℤ), r)
        | '+' :: r => ((1 : ℤ), r)
        | r => ((1 : ℤ), r)
      let ed := er.takeWhile Char.isDigit
      let er₁ := er.dropWhile Char.isDigit
      if ed = [] ∨ er₁ ≠ [] then none
      else some (m * (10 : ℚ) ^ (esign * (natOfDigits ed : ℤ)))
  match rest₁ with
  | [] =>
    if intPart = [] then none else some (sign * (natOfDigits intPart : ℚ))
  | '.' :: frac =>
    let fracD := frac.takeWhile Char.isDigit
    let rest₂ := frac.dropWhile Char.isDigit
    if intPart = [] ∧ fracD = [] then none
    else
      let mant : ℚ :=
        sign * ((natOfDigits intPart : ℚ) + (natOfDigits fracD : ℚ) / (10 : ℚ) ^ fracD.length)
      match rest₂ with
      | [] => some mant
      | 'e' :: ecs => readExp ecs (some mant)
      | 'E' :: ecs => readExp ecs (some mant)
      | _ => none
  | 'e' :: ecs =>
    if intPart = [] then none
    else readExp ecs (some (sign * (natOfDigits intPart : ℚ)))
  | 'E' :: ecs =>
    if intPart = [] then none
    else readExp ecs (some (sign * (natOfDigits intPart : ℚ)))
  | _ => none

/-- Python `float(s)` on a string: surrounding whitespace is ignored,
failure is `none` (a `ValueError` in Python). -/
def pyFloatParse (s : String) : Option ℚ :=
  pyFloatParseCore (stripChars s.data)

/-- Python's banker's rounding of a rational to an integer
(round half to even), as used by builtin `round`. -/
def roundHalfEven (q : ℚ) : ℤ :=
  let f := ⌊q⌋
  let r := q - (f : ℚ)
  if r < 1 / 2 then f
  else if 1 / 2 < r then f + 1
  else if f % 2 = 0 then f else f + 1

/-- Python `round(q, nd)` for nonnegative `nd`. -/
def pyRound (nd : ℕ) (q : ℚ) : ℚ :=
  (roundHalfEven (q * (10 : ℚ) ^ nd) : ℚ) / (10 : ℚ) ^ nd

/-! ## Unit normalization (`nlp/spacy_extractor.py`, `UNIT_ALIASES` and
`normalize_unit`) -/

/-- The `UNIT_ALIASES` table, in its Python insertion order. -/
def UNIT_ALIASES : List (String × String) := [
  ("g", "grams"), ("gram", "grams"), ("grams", "grams"),
  ("kg", "kg"), ("kilogram", "kg"), ("kilograms", "kg"),
  ("ml", "ml"), ("milliliter", "ml"), ("milliliters", "ml"),
  ("l", "liters"), ("liter", "liters"), ("litre", "liters"), ("litres", "liters"),
  ("cup", "cups"), ("cups", "cups"),
  ("slice", "slices"), ("slices", "slices"),
  ("piece", "pieces"), ("pieces", "pieces"), ("pc", "pieces"),
  ("tbsp", "tablespoons"), ("tablespoon", "tablespoons"), ("tablespoons", "tablespoons"),
  ("tsp", "teaspoons"), ("teaspoon", "teaspoons"), ("teaspoons", "teaspoons"),
  ("glass", "glasses"), ("glasses", "glasses"),
  ("serving", "servings"), ("servings", "servings"), ("serve", "servings"),
  ("oz", "ounces"), ("ounce", "ounces"), ("ounces", "ounces"),
  ("lb", "pounds"), ("pound", "pounds"), ("pounds", "pounds"),
  ("bowl", "bowls"), ("bowls", "bowls"),
  ("plate", "plates"), ("plates", "plates"),
  ("can", "cans"), ("cans", "cans"),
  ("bottle", "bottles"), ("bottles", "bottles"),
  ("handful", "handful"), ("bunch", "bunch")]

/-- Python dict lookup `UNIT_ALIASES.get(k)`. -/
def lookupAlias (k : String) : Option String :=
  (UNIT_ALIASES.find? (fun kv => kv.1 == k)).map (·.2)

/-- `normalize_unit` from `nlp/spacy_extractor.py`: empty input defaults to
`"servings"`; otherwise lowercase, strip, and look the token up in
`UNIT_ALIASES`, passing unknown tokens through. -/
def normalize_unit (unit : String) : String :=
  if unit = "" then "servings"
  else
    let unit_lower := pyStrip (pyLower unit)
    (lookupAlias unit_lower).getD unit_lower

/-! ## Quantity parsing (`nlp/spacy_extractor.py`, `parse_number`) -/

/-- The fraction branch of `parse_number`: if the token contains `/`, split
on it and divide the first two parts; every exception (unparseable part,
division by zero) is swallowed and falls through. -/
def fracParse (s : String) : Option ℚ :=
  if s.data.contains '/' then
    match splitOnChar '/' s.data with
    | p₀ :: p₁ :: _ =>
      match pyFloatParse ⟨p₀⟩, pyFloatParse ⟨p₁⟩ with
      | some a, some b => if b = 0 then none else some (a / b)
      | _, _ => none
    | _ => none
  else none

/-- The mixed-fraction branch of `parse_number`, modelling
`re.match` against digits, whitespace, digits, a slash, digits; the
regex is anchored at the start only, trailing text is ignored.  A zero
denominator raises `ZeroDivisionError`, which the code catches, so it is a
parse failure here. -/
def mixedParse (s : String) : Option ℚ :=
  let cs := s.data
  let d₁ := cs.takeWhile Char.isDigit
  let r₁ := cs.dropWhile Char.isDigit
  if d₁ = [] then none
  else
    let sp := r₁.takeWhile pyIsSpace
    let r₂ := r₁.dropWhile pyIsSpace
    if sp = [] then none
    else
      let d₂ := r₂.takeWhile Char.isDigit
      let r₃ := r₂.dropWhile Char.isDigit
      if d₂ = [] then none
      else
        match r₃ with
        | '/' :: r₄ =>
          let d₃ := r₄.takeWhile Char.isDigit
          if d₃ = [] then none
          else if natOfDigits d₃ = 0 then none
          else some ((natOfDigits d₁ : ℚ) + (natOfDigits d₂ : ℚ) / (natOfDigits d₃ : ℚ))
        | _ => none

/-- The closed word-to-number table inside `parse_number`, in source order.
Note the source maps `"third"` to `0.33`, not to one third. -/
def word_numbers : List (String × ℚ) := [
  ("one", 1), ("two", 2), ("three", 3), ("four", 4), ("five", 5),
  ("six", 6), ("seven", 7), ("eight", 8), ("nine", 9), ("ten", 10),
  ("half", 1 / 2), ("quarter", 1 / 4), ("third", 33 / 100),
  ("a", 1), ("an", 1)]

/-- `parse_number` from `nlp/spacy_extractor.py`.  `w2n` models the external
`word2number.w2n.word_to_num` call (`none` = it raised).  Resolution order:
empty input, direct float parse, `a/b` fraction, mixed fraction, the closed
word table, the external converter, fallback `1.0`. -/
def parse_number (w2n : String → Option ℚ) (qty_str : String) : ℚ :=
  if qty_str = "" then 1
  else
    let q := pyLower (pyStrip qty_str)
    match pyFloatParse q with
    | some v => v
    | none =>
      match fracParse q with
      | some v => v
      | none =>
        match mixedParse q with
        | some v => v
        | none =>
          match word_numbers.find? (fun kv => kv.1 == q) with
          | some kv => kv.2
          | none =>
            match w2n q with
            | some v => v
            | none => 1

/-! ## Entity spans, grouping, confidence and item assembly
(`nlp/spacy_extractor.py`) -/

/-- A labeled entity span as produced by the entity source: label
(`"FOOD"`, `"QUANTITY"`, `"UNIT"`), covered text, start/end token offsets
and an optional numeric score (the spec's data model makes the score an
explicit optional field). -/
structure Span where
  label : String
  text : String
  start : ℕ
  «end» : ℕ
  score : Option ℚ
deriving DecidableEq

/-- The per-entity score probed by `extract_item_from_group` line 175:
`getattr(ent, 'score', None) or getattr(ent, 'confidence', None)`.
With the score as an explicit optional field and no separate `confidence`
attribute, Python's `or` turns a score of `0.0` (falsy) into `None`. -/
def pyEntScore (e : Span) : Option ℚ :=
  match e.score with
  | some v => if v = 0 then none else some v
  | none => none

/-- `calculate_confidence` from `nlp/spacy_extractor.py`: the mean of the
scores present in the `(entity, score)` pairs, or a structural heuristic
over the label kinds present when no score survives. -/
def calculate_confidence (entities : List (Span × Option ℚ)) : ℚ :=
  if entities = [] then 1 / 2
  else
    let scores := entities.filterMap (·.2)
    if scores ≠ [] then scores.sum / (scores.length : ℚ)
    else
      let hasF := entities.any (fun p => p.1.label == "FOOD")
      let hasQ := entities.any (fun p => p.1.label == "QUANTITY")
      let hasU := entities.any (fun p => p.1.label == "UNIT")
      if hasF then
        if hasQ && hasU then 95 / 100
        else if hasQ || hasU then 80 / 100
        else 65 / 100
      else 50 / 100

/-- Recursive core of `group_entities_by_proximity`: `cur` is the group
being accumulated and `hasFood` the "group already has a FOOD span" flag. -/
def group_go : List Span → List Span → Bool → List (List Span)
  | [], cur, _ => if cur = [] then [] else [cur]
  | e :: rest, cur, hasFood =>
    if e.label == "FOOD" && hasFood then
      if cur = [] then group_go rest [e] true
      else cur :: group_go rest [e] true
    else group_go rest (cur ++ [e]) (hasFood || e.label == "FOOD")

/-- `group_entities_by_proximity` from `nlp/spacy_extractor.py`: scan left
to right, starting a new group at each FOOD span encountered while the
current group already holds one. -/
def group_entities_by_proximity (entities : List Span) : List (List Span) :=
  if entities = [] then [] else group_go entities [] false

/-- Python's `max(l, key = k)` on a nonempty list: the first element with
the maximal key. -/
def pyMaxBy (k : Span → ℕ) : List Span → Option Span
  | [] => none
  | x :: xs => some (xs.foldl (fun m y => if k m < k y then y else m) x)

/-- The extracted-item record built by `extract_item_from_group`
(a Python dict with these four keys). -/
structure ExtractedItem where
  ingredient : String
  quantity : ℚ
  unit : String
  confidence : ℚ
deriving DecidableEq

/-- `extract_item_from_group` from `nlp/spacy_extractor.py`.  The
ingredient is the space-joined text of the FOOD spans; quantity and unit
come from the closest QUANTITY/UNIT spans ending at or before the first
FOOD span's start, defaulting to `1.0` and the literal `"serving"`;
the confidence is the group confidence rounded to 2 decimals.  `w2n` is
the external word-to-number converter used by `parse_number`. -/
def extract_item_from_group (w2n : String → Option ℚ) (group : List Span) :
    ExtractedItem :=
  let entity_info := group.map (fun e => (e, pyEntScore e))
  let quantities := group.filter (fun e => e.label == "QUANTITY")
  let units := group.filter (fun e => e.label == "UNIT")
  let foods := group.filter (fun e => e.label == "FOOD")
  let ingredient := String.intercalate " " (foods.map (·.text))
  let qu : ℚ × String :=
    match foods with
    | [] => (1, "serving")
    | f :: _ =>
      let valid_quantities := quantities.filter (fun q => q.«end» ≤ f.start)
      let quantity :=
        match pyMaxBy (fun q => q.«end») valid_quantities with
        | some c => parse_number w2n c.text
        | none => 1
      let valid_units := units.filter (fun u => u.«end» ≤ f.start)
      let unit :=
        match pyMaxBy (fun u => u.«end») valid_units with
        | some c => normalize_unit c.text
        | none => "serving"
      (quantity, unit)
  { ingredient := pyStrip ingredient
    quantity := qu.1
    unit := qu.2
    confidence := pyRound 2 (calculate_confidence entity_info) }

/-! ## Nutrition resolution and aggregation (`main.py`) -/

/-- The pydantic `MacroInfo` model's value part.  `fiber` and `sugar` are
optional; the other fields default to `0.0`. -/
structure MacroInfo where
  calories : ℚ
  protein : ℚ
  carbs : ℚ
  fats : ℚ
  fiber : Option ℚ
  sugar : Option ℚ
deriving DecidableEq

/-- Constructing a pydantic `MacroInfo` validates every field against its
`ge=0` constraint; `none` models the raised `ValidationError`. -/
def mkMacroInfo (calories protein carbs fats : ℚ) (fiber sugar : Option ℚ) :
    Option MacroInfo :=
  if 0 ≤ calories ∧ 0 ≤ protein ∧ 0 ≤ carbs ∧ 0 ≤ fats ∧
      0 ≤ fiber.getD 0 ∧ 0 ≤ sugar.getD 0 then
    some ⟨calories, protein, carbs, fats, fiber, sugar⟩
  else none

/-- The pydantic `FoodItem` model's value part. -/
structure FoodItem where
  name : String
  quantity : ℚ
  unit : String
  macros : MacroInfo
  confidence : Option ℚ
  source : String
  notes : Option String
  usda_food_id : Option String
deriving DecidableEq

/-- Constructing a pydantic `FoodItem` validates `quantity` against `gt=0`
and `confidence` against `ge=0, le=1`; `none` models the raised
`ValidationError`.  Field assignments after construction are not
re-validated (pydantic's default), which the embedding mirrors by plain
record updates elsewhere. -/
def mkFoodItem (name : String) (quantity : ℚ) (unit : String)
    (macros : MacroInfo) (confidence : Option ℚ) (source : String)
    (notes : Option String) (usda_food_id : Option String) : Option FoodItem :=
  if 0 < quantity ∧ (∀ c ∈ confidence, 0 ≤ c ∧ c ≤ 1) then
    some ⟨name, quantity, unit, macros, confidence, source, notes, usda_food_id⟩
  else none

/-- One row of the static nutrition table: all six fields are present. -/
structure MockNutrition where
  calories : ℚ
  protein : ℚ
  carbs : ℚ
  fats : ℚ
  fiber : ℚ
  sugar : ℚ
deriving DecidableEq

/-- The `nutrition_db` dict of `get_mock_nutrition_by_food_name`, in its
Python insertion order. -/
def nutrition_db : List (String × MockNutrition) := [
  ("apple", ⟨95, 0.5, 25, 0.3, 4.0, 19⟩),
  ("banana", ⟨105, 1.3, 27, 0.4, 3.1, 14⟩),
  ("orange", ⟨65, 1.3, 16, 0.2, 3.4, 13⟩),
  ("strawberry", ⟨49, 1.0, 12, 0.5, 3.3, 7⟩),
  ("grape", ⟨69, 0.7, 18, 0.2, 0.9, 15⟩),
  ("mango", ⟨99, 1.4, 25, 0.6, 2.6, 23⟩),
  ("pineapple", ⟨82, 0.9, 22, 0.2, 2.3, 16⟩),
  ("watermelon", ⟨46, 0.9, 12, 0.2, 0.6, 9⟩),
  ("peach", ⟨58, 1.4, 14, 0.4, 2.3, 13⟩),
  ("pear", ⟨101, 0.6, 27, 0.2, 5.5, 17⟩),
  ("broccoli", ⟨55, 4.6, 11, 0.6, 5.1, 2.6⟩),
  ("carrot", ⟨41, 0.9, 10, 0.2, 2.8, 4.7⟩),
  ("tomato", ⟨22, 1.1, 4.8, 0.2, 1.4, 3.2⟩),
  ("lettuce", ⟨15, 1.4, 2.9, 0.2, 1.3, 0.8⟩),
  ("spinach", ⟨23, 2.9, 3.6, 0.4, 2.2, 0.4⟩),
  ("cucumber", ⟨16, 0.7, 3.6, 0.1, 0.5, 1.7⟩),
  ("bell pepper", ⟨31, 1.0, 6, 0.3, 2.1, 4.2⟩),
  ("mushroom", ⟨22, 3.1, 3.3, 0.3, 1.0, 2.0⟩),
  ("onion", ⟨40, 1.1, 9, 0.1, 1.7, 4.2⟩),
  ("garlic", ⟨149, 6.4, 33, 0.5, 2.1, 1.0⟩),
  ("chicken", ⟨165, 31, 0, 3.6, 0, 0⟩),
  ("chicken breast", ⟨165, 31, 0, 3.6, 0, 0⟩),
  ("beef", ⟨250, 26, 0, 15, 0, 0⟩),
  ("pork", ⟨242, 27, 0, 14, 0, 0⟩),
  ("fish", ⟨206, 22, 0, 12, 0, 0⟩),
  ("salmon", ⟨208, 20, 0, 13, 0, 0⟩),
  ("tuna", ⟨132, 28, 0, 1.3, 0, 0⟩),
  ("egg", ⟨155, 13, 1.1, 11, 0, 1.1⟩),
  ("tofu", ⟨76, 8, 1.9, 4.8, 0.3, 0.7⟩),
  ("bread", ⟨265, 9, 49, 3.2, 2.7, 5.0⟩),
  ("rice", ⟨130, 2.7, 28, 0.3, 0.4, 0.1⟩),
  ("brown rice", ⟨112, 2.3, 24, 0.9, 1.8, 0.4⟩),
  ("pasta", ⟨131, 5, 25, 1.1, 1.8, 0.6⟩),
  ("potato", ⟨77, 2.0, 17, 0.1, 2.1, 0.8⟩),
  ("sweet potato", ⟨86, 1.6, 20, 0.1, 3.0, 4.2⟩),
  ("oats", ⟨389, 16.9, 66, 6.9, 10.6, 0.99⟩),
  ("quinoa", ⟨120, 4.4, 21, 1.9, 2.8, 0.9⟩),
  ("pizza", ⟨285, 12, 36, 10, 2.3, 3.8⟩),
  ("burger", ⟨295, 17, 23, 14, 2.0, 4.0⟩),
  ("salad", ⟨65, 5, 7, 4, 3.0, 4.0⟩),
  ("sandwich", ⟨230, 10, 30, 8, 3.0, 4.0⟩),
  ("soup", ⟨85, 4, 12, 2.5, 2.0, 3.0⟩),
  ("wrap", ⟨245, 11, 32, 9, 2.5, 3.5⟩),
  ("cheese", ⟨113, 7, 1, 9, 0, 0.5⟩),
  ("yogurt", ⟨59, 10, 3.6, 0.4, 0, 3.6⟩),
  ("milk", ⟨61, 3.2, 4.8, 3.3, 0, 5.1⟩),
  ("nuts", ⟨607, 20, 16, 54, 8.0, 4.0⟩),
  ("almonds", ⟨579, 21, 22, 50, 12.5, 4.4⟩),
  ("peanuts", ⟨567, 26, 16, 49, 8.5, 4.7⟩),
  ("avocado", ⟨160, 2, 9, 15, 7.0, 0.7⟩)]

/-- The generic default profile returned when nothing in the table
matches. -/
def DEFAULT_NUTRITION : MockNutrition := ⟨150, 8, 20, 5, 2.0, 5.0⟩

/-- `get_mock_nutrition_by_food_name` from `main.py`: exact
(case-insensitive) key match first, then the first entry in table order
whose key contains or is contained in the lowercased name, else the
generic default. -/
def get_mock_nutrition_by_food_name (food_name : String) : MockNutrition :=
  let food_name_lower := pyLower food_name
  match nutrition_db.find? (fun kv => kv.1 == food_name_lower) with
  | some kv => kv.2
  | none =>
    match nutrition_db.find?
        (fun kv => strIn kv.1 food_name_lower || strIn food_name_lower kv.1) with
    | some kv => kv.2
    | none => DEFAULT_NUTRITION

/-- The in-place scaling of a USDA-derived `MacroInfo` by the item
quantity (`main.py` lines 303-308): the four mandatory fields are always
scaled; `fiber`/`sugar` only when truthy (present and nonzero).  pydantic
does not re-validate assignments, so no check happens here. -/
def scaleMacros (m : MacroInfo) (q : ℚ) : MacroInfo :=
  { calories := m.calories * q
    protein := m.protein * q
    carbs := m.carbs * q
    fats := m.fats * q
    fiber :=
      match m.fiber with
      | some f => if f = 0 then some f else some (f * q)
      | none => none
    sugar :=
      match m.sugar with
      | some s => if s = 0 then some s else some (s * q)
      | none => none }

/-- The body of the per-item loop of `process_text_analysis` (`main.py`
lines 282-342).  `include_usda` and `usda_configured` model the request
flag and the API-key check; `search` models `search_usda_food` composed
with `str(usda_food.get('fdcId', ''))` on the first candidate (`none` =
empty result list; the function itself swallows every network error);
`detail` models `get_usda_nutrition` followed by `extract_usda_macros`
(`none` = failed fetch or a mapping exception, both of which leave
`macros` unset while `usda_food_id` stays assigned).  A `none` result
models the `except ... continue` that skips the item when a pydantic
validation fails. -/
def process_item (include_usda usda_configured : Bool)
    (search : String → Option String) (detail : String → Option MacroInfo)
    (item : ExtractedItem) : Option FoodItem :=
  let item_name := item.ingredient
  let item_quantity := item.quantity
  let item_unit := item.unit
  let item_confidence := item.confidence
  let usdaStep : Option MacroInfo × List String × Option String :=
    if include_usda && usda_configured then
      match search item_name with
      | some fid =>
        match detail fid with
        | some m => (some (scaleMacros m item_quantity), [], some fid)
        | none => (none, ["USDA nutrition lookup failed"], some fid)
      | none => (none, ["No USDA match found"], none)
    else (none, [], none)
  let usda_food_id := usdaStep.2.2
  let afterFallback : Option (MacroInfo × List String) :=
    match usdaStep.1 with
    | some m => some (m, usdaStep.2.1)
    | none =>
      let mock := get_mock_nutrition_by_food_name item_name
      match mkMacroInfo (mock.calories * item_quantity)
          (mock.protein * item_quantity) (mock.carbs * item_quantity)
          (mock.fats * item_quantity) (some (mock.fiber * item_quantity))
          (some (mock.sugar * item_quantity)) with
      | some m => some (m, usdaStep.2.1 ++ ["Using estimated nutrition values"])
      | none => none
  match afterFallback with
  | none => none
  | some (macros, notes) =>
    let final_confidence :=
      if usda_food_id.getD "" ≠ "" then min (item_confidence + 5 / 100) 1
      else item_confidence
    mkFoodItem item_name item_quantity item_unit macros (some final_confidence)
      (if usda_food_id.getD "" ≠ "" then "text_usda" else "text_estimated")
      (if notes = [] then none else some (String.intercalate "; " notes))
      usda_food_id

/-- `process_text_analysis` from `main.py`, given the already-extracted
items (the surrounding `try` turns an extractor fault into the empty
list): each item is processed independently and items whose processing
raises are skipped. -/
def process_text_analysis (include_usda usda_configured : Bool)
    (search : String → Option String) (detail : String → Option MacroInfo)
    (extracted : List ExtractedItem) : List FoodItem :=
  extracted.filterMap (process_item include_usda usda_configured search detail)

/-- `calculate_totals` from `main.py`: sum every macro field (`fiber` and
`sugar` via `or 0`), build a `MacroInfo` (pydantic validates the sums),
then round each field to 1 decimal in place — the optional fields only
when truthy.  `none` models a `ValidationError` escaping to the caller. -/
def calculate_totals (items : List FoodItem) : Option MacroInfo :=
  let cal := (items.map (fun i => i.macros.calories)).sum
  let prot := (items.map (fun i => i.macros.protein)).sum
  let carb := (items.map (fun i => i.macros.carbs)).sum
  let fat := (items.map (fun i => i.macros.fats)).sum
  let fib := (items.map (fun i => i.macros.fiber.getD 0)).sum
  let sug := (items.map (fun i => i.macros.sugar.getD 0)).sum
  (mkMacroInfo cal prot carb fat (some fib) (some sug)).map (fun t =>
    { calories := pyRound 1 t.calories
      protein := pyRound 1 t.protein
      carbs := pyRound 1 t.carbs
      fats := pyRound 1 t.fats
      fiber :=
        match t.fiber with
        | some f => if f = 0 then some f else some (pyRound 1 f)
        | none => none
      sugar :=
        match t.sugar with
        | some s => if s = 0 then some s else some (pyRound 1 s)
        | none => none })

/-- `MacroInfo()` with all defaults: zero mandatory fields, absent
optional fields (used by the failure branch of `analyze_text`). -/
def zeroMacroInfo : MacroInfo := ⟨0, 0, 0, 0, none, none⟩

/-- The parts of the `NutritionAnalysis` response model the core
produces (timing and the metadata dict are reporting-only and omitted). -/
structure NutritionAnalysis where
  success : Bool
  input_type : String
  raw_input : String
  items : List FoodItem
  totals : MacroInfo
  warnings : List String
deriving DecidableEq

/-- The `except` branch of `analyze_text` (`main.py` lines 442-454): a
whole-pipeline fault is converted into a well-formed failure response
carrying the exception text. -/
def analysisFailureResponse (raw msg : String) : NutritionAnalysis :=
  { success := false
    input_type := "text"
    raw_input := raw
    items := []
    totals := zeroMacroInfo
    warnings := ["Analysis failed: " ++ msg] }

/-- `analyze_text` from `main.py`, over already-extracted items: process,
total, attach warnings; any fault escaping the `try` block (modelled: a
`ValidationError` out of `calculate_totals`) produces the failure
response. -/
def analyze_text (raw : String) (include_usda usda_configured ml_available : Bool)
    (search : String → Option String) (detail : String → Option MacroInfo)
    (extracted : List ExtractedItem) : NutritionAnalysis :=
  let items := process_text_analysis include_usda usda_configured search detail extracted
  match calculate_totals items with
  | some totals =>
    let warnings :=
      (if items = [] then ["No food items could be identified"] else []) ++
      (if ml_available then [] else ["Using basic extraction (enhanced ML unavailable)"]) ++
      (if usda_configured then []
       else ["Using estimated nutrition data (USDA API not configured)"])
    { success := true
      input_type := "text"
      raw_input := raw
      items := items
      totals := totals
      warnings := warnings }
  | none => analysisFailureResponse raw "validation error"

/-- Start offset of the first FOOD span of a group (`foods[0].start` in
`extract_item_from_group`); `0` when the group has no FOOD span. -/
def first_food_start (group : List Span) : ℕ :=
  match group.filter (fun e => e.label == "FOOD") with
  | f :: _ => f.start
  | [] => 0

/-! ## Theorems -/

theorem group_go_join (es : List Span) :
    ∀ (cur : List Span) (hf : Bool), (group_go es cur hf).flatten = cur ++ es := by
  induction es with
  | nil =>
    intro cur hf
    by_cases h : cur = [] <;> simp [group_go, h]
  | cons e rest ih =>
    intro cur hf
    by_cases h1 : e.label == "FOOD" && hf
    · by_cases h2 : cur = [] <;> simp [group_go, h1, h2, ih]
    · simp [group_go, h1, ih]

/-- C3: grouping is a lossless, order-preserving partition — concatenating
the groups produced by `group_entities_by_proximity` reproduces the input
span sequence exactly. -/
theorem C3_grouping_partition (entities : List Span) :
    (group_entities_by_proximity entities).flatten = entities := by
  unfold group_entities_by_proximity
  by_cases h : entities = [] <;> simp [h, group_go_join]

/-- C1 counterexample: a group consisting of a single FOOD span (so it has
a FOOD span and no UNIT span at all) is assembled with unit `"serving"`,
not the canonical `"servings"` the claim states. -/
theorem C1_cex :
    ([⟨"FOOD", "apples", 0, 6, none⟩] : List Span).filter
        (fun e => e.label == "FOOD") ≠ [] ∧
    ([⟨"FOOD", "apples", 0, 6, none⟩] : List Span).filter
        (fun e => e.label == "UNIT") = [] ∧
    (extract_item_from_group (fun _ => none)
        [⟨"FOOD", "apples", 0, 6, none⟩]).unit ≠ "servings" := by
  refine ⟨by decide, by decide, by decide⟩

/-- C1 amended: for a group with at least one FOOD span and no UNIT span
ending at or before the first FOOD span's start, the assembled item's unit
is the literal `"serving"` (the initialisation value, which is never
normalized), not `"servings"`. -/
theorem C1_thm (w2n : String → Option ℚ) (group : List Span)
    (hf : group.filter (fun e => e.label == "FOOD") ≠ [])
    (hu : ∀ u ∈ group, u.label = "UNIT" → ¬ (u.«end» ≤ first_food_start group)) :
    (extract_item_from_group w2n group).unit = "serving" := by
  unfold extract_item_from_group
  cases hfs : group.filter (fun e => e.label == "FOOD") with
  | nil => exact absurd hfs hf
  | cons f fs =>
    have hffs : first_food_start group = f.start := by
      unfold first_food_start; rw [hfs]
    have hvu : (group.filter (fun e => e.label == "UNIT")).filter
        (fun u => u.«end» ≤ f.start) = [] := by
      rw [List.filter_eq_nil_iff]
      intro u hu'
      have hmem := List.mem_of_mem_filter hu'
      have hlab : u.label = "UNIT" := by
        have := List.of_mem_filter hu'
        simpa using this
      have := hu u hmem hlab
      rw [hffs] at this
      simpa using this
    simp only [hfs, hvu]
    rfl

/-- C1 witness: the amended statement instantiated at the one-FOOD-span
group, with both hypotheses discharged concretely. -/
theorem C1_wit :
    ([⟨"FOOD", "apples", 0, 6, none⟩] : List Span).filter
        (fun e => e.label == "FOOD") ≠ [] ∧
    (extract_item_from_group (fun _ => none)
        [⟨"FOOD", "apples", 0, 6, none⟩]).unit = "serving" :=
  ⟨by decide, C1_thm (fun _ => none) [⟨"FOOD", "apples", 0, 6, none⟩]
    (by decide) (by decide)⟩

/-- C4 counterexample: in a group whose spans carry the scores `0.8` and
`0`, the claim's arithmetic mean of the present scores is `0.4`, but the
code computes `0.8`: a score of exactly `0` is discarded by the Python
truthiness test on line 175, not averaged. -/
theorem C4_cex :
    (⟨"QUANTITY", "2", 0, 1, some 0⟩ : Span).score = some 0 ∧
    calculate_confidence
        (([⟨"FOOD", "apple", 2, 7, some (8 / 10)⟩,
           ⟨"QUANTITY", "2", 0, 1, some 0⟩] : List Span).map
          (fun e => (e, pyEntScore e))) = 8 / 10 ∧
    ((8 : ℚ) / 10 + 0) / 2 = 4 / 10 ∧ ((8 : ℚ) / 10 ≠ 4 / 10) := by
  refine ⟨by decide, by decide, by decide, by decide⟩

/-- C4 amended: the group confidence is the mean of the nonzero scores
present (a score of `0` is treated as absent, like a missing score);
only when no nonzero score survives does the label-type heuristic apply
(0.95 for FOOD+QUANTITY+UNIT, 0.80 for FOOD plus exactly one of the two,
0.65 for FOOD only, 0.50 with no FOOD). -/
theorem C4_thm (group : List Span) (hne : group ≠ []) :
    (group.filterMap pyEntScore ≠ [] →
      calculate_confidence (group.map (fun e => (e, pyEntScore e))) =
        (group.filterMap pyEntScore).sum /
          ((group.filterMap pyEntScore).length : ℚ)) ∧
    (group.filterMap pyEntScore = [] →
      calculate_confidence (group.map (fun e => (e, pyEntScore e))) =
        if ∃ e ∈ group, e.label = "FOOD" then
          if (∃ e ∈ group, e.label = "QUANTITY") ∧ (∃ e ∈ group, e.label = "UNIT") then
            95 / 100
          else if (∃ e ∈ group, e.label = "QUANTITY") ∨ (∃ e ∈ group, e.label = "UNIT") then
            80 / 100
          else 65 / 100
        else 50 / 100) := by
  have hmap : (group.map (fun e => (e, pyEntScore e))).filterMap (·.2) =
      group.filterMap pyEntScore := by
    rw [List.filterMap_map]
    rfl
  have hmapne : group.map (fun e => (e, pyEntScore e)) ≠ [] := by
    simpa using hne
  have hany : ∀ lab : String,
      ((group.map (fun e => (e, pyEntScore e))).any (fun p => p.1.label == lab)) =
        decide (∃ e ∈ group, e.label = lab) := by
    intro lab
    rw [Bool.eq_iff_iff]
    simp [List.any_eq_true]
  constructor
  · intro hs
    unfold calculate_confidence
    rw [if_neg hmapne, hmap]
    rw [if_pos hs]
  · intro hs
    unfold calculate_confidence
    rw [if_neg hmapne, hmap, if_neg (by simp [hs])]
    rw [hany "FOOD", hany "QUANTITY", hany "UNIT"]
    by_cases hF : ∃ e ∈ group, e.label = "FOOD"
    · by_cases hQ : ∃ e ∈ group, e.label = "QUANTITY" <;>
        by_cases hU : ∃ e ∈ group, e.label = "UNIT" <;>
        simp [hF, hQ, hU]
    · simp [hF]

/-- C4 witness: the amended statement instantiated at a score-free
FOOD-only group, whose confidence is the heuristic value 0.65. -/
theorem C4_wit :
    ([⟨"FOOD", "apple", 0, 5, none⟩] : List Span) ≠ [] ∧
    ([⟨"FOOD", "apple", 0, 5, none⟩] : List Span).filterMap pyEntScore = [] ∧
    calculate_confidence
        (([⟨"FOOD", "apple", 0, 5, none⟩] : List Span).map
          (fun e => (e, pyEntScore e))) = 65 / 100 :=
  ⟨by decide, by decide,
    ((C4_thm [⟨"FOOD", "apple", 0, 5, none⟩] (by decide)).2 (by decide)).trans
      (by decide)⟩

/-- C5 counterexample: the quantity parser maps the input `"0"` to `0.0`,
which is not strictly positive, so the parser does not always return a
positive float. -/
theorem C5_cex :
    parse_number (fun _ => none) "0" = 0 ∧ ¬ (0 : ℚ) < 0 := by
  refine ⟨by decide, by decide⟩

/-- C5 amended: the parser always terminates with a value (every internal
failure is caught), and its result is strictly positive whenever the
numeric stages (direct float parse, `a/b` fraction, mixed fraction) all
fail and the external word converter does not itself supply a nonpositive
value — the surviving sources are then the all-positive lexical table and
the fallback `1.0`.  Numeric stages, however, pass their value through
verbatim, so inputs like `"0"` or `"-2"` yield nonpositive quantities. -/
theorem C5_thm (w2n : String → Option ℚ) (s : String)
    (h1 : pyFloatParse (pyLower (pyStrip s)) = none)
    (h2 : fracParse (pyLower (pyStrip s)) = none)
    (h3 : mixedParse (pyLower (pyStrip s)) = none)
    (h4 : ∀ v ∈ w2n (pyLower (pyStrip s)), 0 < v) :
    0 < parse_number w2n s := by
  unfold parse_number
  by_cases hs : s = ""
  · rw [if_pos hs]; norm_num
  · rw [if_neg hs]
    simp only [h1, h2, h3]
    cases hw : word_numbers.find? (fun kv => kv.1 == pyLower (pyStrip s)) with
    | some kv =>
      simp only [hw]
      have hkv := List.mem_of_find?_eq_some hw
      have : ∀ kv ∈ word_numbers, (0 : ℚ) < kv.2 := by decide
      exact this kv hkv
    | none =>
      simp only [hw]
      cases hv : w2n (pyLower (pyStrip s)) with
      | some v =>
        simp only [hv]
        exact h4 v (by rw [hv]; rfl)
      | none => simp only [hv]; norm_num

/-- C5 witness: the amended statement instantiated at the lexical-table
input `"half"` with the external converter absent. -/
theorem C5_wit :
    pyFloatParse (pyLower (pyStrip "half")) = none ∧
    fracParse (pyLower (pyStrip "half")) = none ∧
    mixedParse (pyLower (pyStrip "half")) = none ∧
    0 < parse_number (fun _ => none) "half" :=
  ⟨by decide, by decide, by decide,
    C5_thm (fun _ => none) "half" (by decide) (by decide) (by decide)
      (by intro v hv; cases hv)⟩

/-- C6 counterexample: the lexical table maps `"third"` to exactly `0.33`,
not to one third (`0.333…`), contradicting the claimed value. -/
theorem C6_cex :
    parse_number (fun _ => none) "third" = 33 / 100 ∧
    (33 : ℚ) / 100 ≠ 1 / 3 := by
  refine ⟨by decide, by decide⟩

/-- C6 amended: the closed lexical table maps `"one"`…`"ten"` to 1…10,
`"half"` to 0.5, `"quarter"` to 0.25, `"a"`/`"an"` to 1 — but `"third"`
to the truncated constant `0.33`, not one third.  These values are
returned regardless of the external word converter. -/
theorem C6_thm (w2n : String → Option ℚ) :
    parse_number w2n "one" = 1 ∧ parse_number w2n "two" = 2 ∧
    parse_number w2n "three" = 3 ∧ parse_number w2n "four" = 4 ∧
    parse_number w2n "five" = 5 ∧ parse_number w2n "six" = 6 ∧
    parse_number w2n "seven" = 7 ∧ parse_number w2n "eight" = 8 ∧
    parse_number w2n "nine" = 9 ∧ parse_number w2n "ten" = 10 ∧
    parse_number w2n "half" = 1 / 2 ∧ parse_number w2n "quarter" = 1 / 4 ∧
    parse_number w2n "third" = 33 / 100 ∧ parse_number w2n "a" = 1 ∧
    parse_number w2n "an" = 1 :=
  ⟨rfl, rfl, rfl, rfl, rfl, rfl, rfl, rfl, rfl, rfl, rfl, rfl, rfl, rfl, rfl⟩

theorem find?_eq_of_first {α : Type} (p : α → Bool) (l : List α) (i : ℕ)
    (hi : i < l.length) (hp : p (l.get ⟨i, hi⟩) = true)
    (hmin : ∀ j (hj : j < l.length), j < i → p (l.get ⟨j, hj⟩) = false) :
    l.find? p = some (l.get ⟨i, hi⟩) := by
  induction l generalizing i with
  | nil => simp at hi
  | cons a t ih =>
    cases i with
    | zero =>
      simp only [List.get] at hp
      simp [List.find?_cons, hp]
    | succ n =>
      have ha : p a = false := hmin 0 (by simp) (Nat.succ_pos n)
      rw [List.find?_cons, ha]
      exact ih n (Nat.lt_of_succ_lt_succ hi) hp
        (fun j hj hlt => hmin (j + 1) (Nat.succ_lt_succ hj) (Nat.succ_lt_succ hlt))

/-- C7: characterization of the fallback nutrition lookup.  Writing `l` for
the lowercased ingredient and `r` for the returned profile: (1) if some
table index holds the key `l`, `r` is that entry's profile; (2) with no
exact key match, if index `i` matches by substring containment in either
direction and no earlier index does, `r` is entry `i`'s profile; (3) with
no exact and no substring match, `r` is the fixed generic default; (4) the
table's keys are pairwise distinct, so case (1) is unambiguous. -/
theorem C7_thm (food_name : String) :
    (∀ i : Fin nutrition_db.length,
      (nutrition_db.get i).1 = pyLower food_name →
      get_mock_nutrition_by_food_name food_name = (nutrition_db.get i).2) ∧
    ((∀ kv ∈ nutrition_db, kv.1 ≠ pyLower food_name) →
      ∀ i : Fin nutrition_db.length,
      (strIn (nutrition_db.get i).1 (pyLower food_name) ||
        strIn (pyLower food_name) (nutrition_db.get i).1) = true →
      (∀ j : Fin nutrition_db.length, (j : ℕ) < (i : ℕ) →
        (strIn (nutrition_db.get j).1 (pyLower food_name) ||
          strIn (pyLower food_name) (nutrition_db.get j).1) = false) →
      get_mock_nutrition_by_food_name food_name = (nutrition_db.get i).2) ∧
    ((∀ kv ∈ nutrition_db, kv.1 ≠ pyLower food_name) →
      (∀ i : Fin nutrition_db.length,
        (strIn (nutrition_db.get i).1 (pyLower food_name) ||
          strIn (pyLower food_name) (nutrition_db.get i).1) = false) →
      get_mock_nutrition_by_food_name food_name = DEFAULT_NUTRITION) ∧
    (nutrition_db.map Prod.fst).Nodup := by
  refine ⟨?_, ?_, ?_, by decide⟩
  · intro i hkey
    have hnodup : (nutrition_db.map Prod.fst).Nodup := by decide
    have hfind : nutrition_db.find? (fun kv => kv.1 == pyLower food_name) =
        some (nutrition_db.get i) := by
      apply find?_eq_of_first _ _ (i : ℕ) i.isLt
      · simpa using hkey
      · intro j hj hlt
        simp only [beq_eq_false_iff_ne, ne_eq]
        intro heq
        have hkeq : (nutrition_db.get ⟨j, hj⟩).1 = (nutrition_db.get i).1 :=
          heq.trans hkey.symm
        have hmapeq : (nutrition_db.map Prod.fst).get ⟨j, by simpa using hj⟩ =
            (nutrition_db.map Prod.fst).get ⟨(i : ℕ), by simpa using i.isLt⟩ := by
          simpa using hkeq
        have := (List.Nodup.get_inj_iff hnodup).mp hmapeq
        have hji : j = (i : ℕ) := congrArg Fin.val this
        omega
    unfold get_mock_nutrition_by_food_name
    dsimp only
    rw [hfind]
  · intro hnone i hi hmin
    have hfindnone : nutrition_db.find? (fun kv => kv.1 == pyLower food_name) = none := by
      rw [List.find?_eq_none]
      intro kv hkv
      simpa using hnone kv hkv
    have hfind : nutrition_db.find?
        (fun kv => strIn kv.1 (pyLower food_name) || strIn (pyLower food_name) kv.1) =
        some (nutrition_db.get i) := by
      apply find?_eq_of_first _ _ (i : ℕ) i.isLt
      · exact hi
      · intro j hj hlt
        exact hmin ⟨j, hj⟩ hlt
    unfold get_mock_nutrition_by_food_name
    dsimp only
    rw [hfindnone, hfind]
  · intro hnone hpart
    have hfindnone : nutrition_db.find? (fun kv => kv.1 == pyLower food_name) = none := by
      rw [List.find?_eq_none]
      intro kv hkv
      simpa using hnone kv hkv
    have hfind2 : nutrition_db.find?
        (fun kv => strIn kv.1 (pyLower food_name) || strIn (pyLower food_name) kv.1) =
        none := by
      rw [List.find?_eq_none]
      intro kv hkv
      obtain ⟨i, hi⟩ := List.get_of_mem hkv
      subst hi
      have h := hpart i
      rw [Bool.or_eq_false_iff] at h
      simpa using h
    unfold get_mock_nutrition_by_food_name
    dsimp only
    rw [hfindnone, hfind2]

/-- C7 witness: the characterization applied at three concrete names, one
per tier — an exact (case-insensitive) match, a substring match won by the
first qualifying entry, and the generic default. -/
theorem C7_wit :
    get_mock_nutrition_by_food_name "APPLE" = ⟨95, 0.5, 25, 0.3, 4.0, 19⟩ ∧
    get_mock_nutrition_by_food_name "grilled chicken" = ⟨165, 31, 0, 3.6, 0, 0⟩ ∧
    get_mock_nutrition_by_food_name "dragonfruit" = DEFAULT_NUTRITION := by
  refine ⟨?_, ?_, ?_⟩
  · exact ((C7_thm "APPLE").1 ⟨0, by decide⟩ (by decide)).trans (by decide)
  · exact (((C7_thm "grilled chicken").2.1 (by decide) ⟨20, by decide⟩
      (by decide) (by decide))).trans (by decide)
  · exact (C7_thm "dragonfruit").2.2.1 (by decide) (by decide)

theorem ifZeroRound (x : ℚ) :
    (if x = 0 then some x else some (pyRound 1 x)) = some (pyRound 1 x) := by
  by_cases h : x = 0
  · rw [if_pos h, h]
    have : pyRound 1 0 = 0 := by decide
    rw [this]
  · rw [if_neg h]

/-- C8: for resolved items (macro fields nonnegative, as every item built
by the resolver satisfies), each field of `calculate_totals` is the sum of
that field over all items — an absent optional `fiber`/`sugar` contributing
`0` — rounded to 1 decimal, and the empty list yields the all-zero
totals. -/
theorem C8_thm (items : List FoodItem)
    (h : ∀ it ∈ items, 0 ≤ it.macros.calories ∧ 0 ≤ it.macros.protein ∧
      0 ≤ it.macros.carbs ∧ 0 ≤ it.macros.fats ∧
      0 ≤ it.macros.fiber.getD 0 ∧ 0 ≤ it.macros.sugar.getD 0) :
    calculate_totals items = some
      { calories := pyRound 1 ((items.map (fun i => i.macros.calories)).sum)
        protein := pyRound 1 ((items.map (fun i => i.macros.protein)).sum)
        carbs := pyRound 1 ((items.map (fun i => i.macros.carbs)).sum)
        fats := pyRound 1 ((items.map (fun i => i.macros.fats)).sum)
        fiber := some (pyRound 1 ((items.map (fun i => i.macros.fiber.getD 0)).sum))
        sugar := some (pyRound 1 ((items.map (fun i => i.macros.sugar.getD 0)).sum)) } ∧
    calculate_totals [] = some ⟨0, 0, 0, 0, some 0, some 0⟩ := by
  constructor
  · have hsum : ∀ f : FoodItem → ℚ, (∀ it ∈ items, 0 ≤ f it) →
        0 ≤ ((items.map f).sum) := by
      intro f hf
      apply List.sum_nonneg
      intro a ha
      obtain ⟨it, hit, rfl⟩ := List.mem_map.mp ha
      exact hf it hit
    have hval : 0 ≤ (items.map (fun i => i.macros.calories)).sum ∧
        0 ≤ (items.map (fun i => i.macros.protein)).sum ∧
        0 ≤ (items.map (fun i => i.macros.carbs)).sum ∧
        0 ≤ (items.map (fun i => i.macros.fats)).sum ∧
        0 ≤ (some ((items.map (fun i => i.macros.fiber.getD 0)).sum)).getD 0 ∧
        0 ≤ (some ((items.map (fun i => i.macros.sugar.getD 0)).sum)).getD 0 := by
      refine ⟨hsum _ (fun it hit => (h it hit).1),
        hsum _ (fun it hit => (h it hit).2.1),
        hsum _ (fun it hit => (h it hit).2.2.1),
        hsum _ (fun it hit => (h it hit).2.2.2.1), ?_, ?_⟩
      · simpa using hsum _ (fun it hit => (h it hit).2.2.2.2.1)
      · simpa using hsum _ (fun it hit => (h it hit).2.2.2.2.2)
    unfold calculate_totals mkMacroInfo
    dsimp only
    rw [if_pos hval]
    dsimp only [Option.map_some']
    simp only [MacroInfo.mk.injEq, Option.some.injEq]
    refine ⟨trivial, trivial, trivial, trivial, ?_, ?_⟩ <;> rw [ifZeroRound]
  · decide

/-- C8 witness: the totals equation instantiated at a concrete singleton
list whose sums need no carrying, with the nonnegativity hypothesis
checked by evaluation. -/
theorem C8_wit :
    (∀ it ∈ ([⟨"apples", 2, "servings", ⟨190, 1, 50, 3 / 5, some 8, some 38⟩,
        none, "text_estimated", none, none⟩] : List FoodItem),
      0 ≤ it.macros.calories ∧ 0 ≤ it.macros.protein ∧
      0 ≤ it.macros.carbs ∧ 0 ≤ it.macros.fats ∧
      0 ≤ it.macros.fiber.getD 0 ∧ 0 ≤ it.macros.sugar.getD 0) ∧
    calculate_totals [⟨"apples", 2, "servings", ⟨190, 1, 50, 3 / 5, some 8, some 38⟩,
        none, "text_estimated", none, none⟩] =
      some ⟨190, 1, 50, 3 / 5, some 8, some 38⟩ :=
  ⟨by decide,
    ((C8_thm [⟨"apples", 2, "servings", ⟨190, 1, 50, 3 / 5, some 8, some 38⟩,
        none, "text_estimated", none, none⟩] (by decide)).1).trans (by decide)⟩

theorem mkFoodItem_eq_some {n : String} {q : ℚ} {u : String} {m : MacroInfo}
    {c : Option ℚ} {s : String} {nt id : Option String} {fi : FoodItem}
    (h : mkFoodItem n q u m c s nt id = some fi) :
    fi = ⟨n, q, u, m, c, s, nt, id⟩ := by
  unfold mkFoodItem at h
  split at h
  · exact (Option.some.inj h).symm
  · cases h

/-- C2 counterexample: external lookup enabled, the search returns a
candidate id, the detail fetch fails — the item's macros come from the
fallback table (the notes say "Using estimated nutrition values"), yet its
confidence is `0.85`, a `+0.05` boost over the extraction-time `0.80`,
contradicting the claim that fallback-tier items keep their confidence
unchanged. -/
theorem C2_cex :
    process_item true true (fun _ => some "12345") (fun _ => none)
        ⟨"apples", 2, "servings", 4 / 5⟩ =
      some ⟨"apples", 2, "servings", ⟨190, 1, 50, 3 / 5, some 8, some 38⟩,
        some (17 / 20), "text_usda",
        some "USDA nutrition lookup failed; Using estimated nutrition values",
        some "12345"⟩ ∧
    (some "USDA nutrition lookup failed; Using estimated nutrition values"
        : Option String).any (strIn "Using estimated nutrition values") = true ∧
    (17 : ℚ) / 20 ≠ 4 / 5 := by
  refine ⟨by decide, by decide, by decide⟩

/-- C2 amended: for an item resolved via the fallback table (its notes
carry "Using estimated nutrition values"), the confidence is unchanged
when external lookup was disabled or the search found no candidate — but
when a candidate id was found and only the detail fetch or mapping failed,
the code still applies the `+0.05` boost capped at `1.0`. -/
theorem C2_thm (include_usda usda_configured : Bool)
    (search : String → Option String) (detail : String → Option MacroInfo)
    (item : ExtractedItem) (fi : FoodItem)
    (hp : process_item include_usda usda_configured search detail item = some fi)
    (hfb : fi.notes.any (strIn "Using estimated nutrition values") = true) :
    fi.confidence = some
      (if fi.usda_food_id.getD "" ≠ "" then min (item.confidence + 5 / 100) 1
       else item.confidence) := by
  unfold process_item at hp
  dsimp only at hp
  cases hb : include_usda && usda_configured with
  | false =>
    rw [hb] at hp
    simp only [Bool.false_eq_true, if_false] at hp
    cases hmk : mkMacroInfo
        (((get_mock_nutrition_by_food_name item.ingredient).calories) * item.quantity)
        (((get_mock_nutrition_by_food_name item.ingredient).protein) * item.quantity)
        (((get_mock_nutrition_by_food_name item.ingredient).carbs) * item.quantity)
        (((get_mock_nutrition_by_food_name item.ingredient).fats) * item.quantity)
        (some (((get_mock_nutrition_by_food_name item.ingredient).fiber) * item.quantity))
        (some (((get_mock_nutrition_by_food_name item.ingredient).sugar) * item.quantity)) with
    | none => rw [hmk] at hp; cases hp
    | some m =>
      rw [hmk] at hp
      dsimp only at hp
      have := mkFoodItem_eq_some hp
      subst this
      rfl
  | true =>
    rw [hb] at hp
    simp only [if_true] at hp
    cases hs : search item.ingredient with
    | none =>
      rw [hs] at hp
      dsimp only at hp
      cases hmk : mkMacroInfo
          (((get_mock_nutrition_by_food_name item.ingredient).calories) * item.quantity)
          (((get_mock_nutrition_by_food_name item.ingredient).protein) * item.quantity)
          (((get_mock_nutrition_by_food_name item.ingredient).carbs) * item.quantity)
          (((get_mock_nutrition_by_food_name item.ingredient).fats) * item.quantity)
          (some (((get_mock_nutrition_by_food_name item.ingredient).fiber) * item.quantity))
          (some (((get_mock_nutrition_by_food_name item.ingredient).sugar) * item.quantity)) with
      | none => rw [hmk] at hp; cases hp
      | some m =>
        rw [hmk] at hp
        dsimp only at hp
        have := mkFoodItem_eq_some hp
        subst this
        rfl
    | some fid =>
      rw [hs] at hp
      dsimp only at hp
      cases hd : detail fid with
      | some m =>
        rw [hd] at hp
        dsimp only at hp
        have := mkFoodItem_eq_some hp
        subst this
        simp [Option.any] at hfb
      | none =>
        rw [hd] at hp
        dsimp only at hp
        cases hmk : mkMacroInfo
            (((get_mock_nutrition_by_food_name item.ingredient).calories) * item.quantity)
            (((get_mock_nutrition_by_food_name item.ingredient).protein) * item.quantity)
            (((get_mock_nutrition_by_food_name item.ingredient).carbs) * item.quantity)
            (((get_mock_nutrition_by_food_name item.ingredient).fats) * item.quantity)
            (some (((get_mock_nutrition_by_food_name item.ingredient).fiber) * item.quantity))
            (some (((get_mock_nutrition_by_food_name item.ingredient).sugar) * item.quantity)) with
        | none => rw [hmk] at hp; cases hp
        | some m =>
          rw [hmk] at hp
          dsimp only at hp
          have := mkFoodItem_eq_some hp
          subst this
          rfl

/-- C2 witness: the amended statement at a concrete fallback resolution
with external lookup disabled — the confidence stays the extraction-time
`0.80`. -/
theorem C2_wit :
    process_item false false (fun _ => none) (fun _ => none)
        ⟨"apples", 2, "servings", 4 / 5⟩ =
      some ⟨"apples", 2, "servings", ⟨190, 1, 50, 3 / 5, some 8, some 38⟩,
        some (4 / 5), "text_estimated",
        some "Using estimated nutrition values", none⟩ ∧
    (⟨"apples", 2, "servings", ⟨190, 1, 50, 3 / 5, some 8, some 38⟩,
        some (4 / 5), "text_estimated",
        some "Using estimated nutrition values", none⟩ : FoodItem).notes.any
      (strIn "Using estimated nutrition values") = true ∧
    (⟨"apples", 2, "servings", ⟨190, 1, 50, 3 / 5, some 8, some 38⟩,
        some (4 / 5), "text_estimated",
        some "Using estimated nutrition values", none⟩ : FoodItem).confidence =
      some ((4 : ℚ) / 5) :=
  ⟨by decide, by decide,
    (C2_thm false false (fun _ => none) (fun _ => none)
      ⟨"apples", 2, "servings", 4 / 5⟩
      ⟨"apples", 2, "servings", ⟨190, 1, 50, 3 / 5, some 8, some 38⟩,
        some (4 / 5), "text_estimated",
        some "Using estimated nutrition values", none⟩
      (by decide) (by decide)).trans (by decide)⟩

/-- C9 counterexample: an extracted item with quantity `0` (reachable,
since the quantity parser returns `0.0` on the token `"0"`) is dropped by
the per-item `except: continue` when the `FoodItem` validation rejects
`quantity = 0`, so the resolver does not produce a resolved item for every
extracted item. -/
theorem C9_cex :
    process_text_analysis false false (fun _ => none) (fun _ => none)
        [⟨"apples", 0, "servings", 13 / 20⟩] = [] ∧
    ([(⟨"apples", 0, "servings", 13 / 20⟩ : ExtractedItem)]).length = 1 ∧
    parse_number (fun _ => none) "0" = 0 := by
  refine ⟨by decide, by decide, by decide⟩

/-- C9 amended: no unhandled exception propagates — per-item faults skip
that item only, so the resolver yields at most (not exactly) one resolved
item per extracted item; and the whole-pipeline failure handler returns a
well-formed terminal response with an empty item list, the all-zero
default totals, and a descriptive warning. -/
theorem C9_thm :
    (∀ (include_usda usda_configured : Bool) (search : String → Option String)
        (detail : String → Option MacroInfo) (extracted : List ExtractedItem),
      (process_text_analysis include_usda usda_configured search detail
          extracted).length ≤ extracted.length) ∧
    (∀ raw msg : String,
      (analysisFailureResponse raw msg).success = false ∧
      (analysisFailureResponse raw msg).items = [] ∧
      (analysisFailureResponse raw msg).totals = zeroMacroInfo ∧
      (analysisFailureResponse raw msg).warnings = ["Analysis failed: " ++ msg]) :=
  ⟨fun _ _ _ _ _ => List.length_filterMap_le _ _,
   fun _ _ => ⟨rfl, rfl, rfl, rfl⟩⟩

theorem char_toNat_ofNat {n : ℕ} (h : n.isValidChar) : (Char.ofNat n).toNat = n := by
  unfold Char.ofNat
  rw [dif_pos h]
  rfl

theorem toLower_toLower (c : Char) : c.toLower.toLower = c.toLower := by
  simp only [Char.toLower]
  by_cases h : c.toNat ≥ 65 ∧ c.toNat ≤ 90
  · simp only [if_pos h]
    have hv : Nat.isValidChar (c.toNat + 32) := Or.inl (by omega)
    rw [char_toNat_ofNat hv]
    rw [if_neg (by omega)]
  · simp only [if_neg h]

theorem mem_stripChars {c : Char} {l : List Char} (h : c ∈ stripChars l) : c ∈ l := by
  unfold stripChars at h
  have h1 : c ∈ List.dropWhile pyIsSpace l :=
    (List.rdropWhile_prefix pyIsSpace (List.dropWhile pyIsSpace l)).subset h
  exact (List.dropWhile_sublist pyIsSpace).subset h1

theorem dropWhile_stripChars (l : List Char) :
    List.dropWhile pyIsSpace (stripChars l) = stripChars l := by
  unfold stripChars
  rw [List.dropWhile_eq_self_iff]
  intro hl
  have hpre := List.rdropWhile_prefix pyIsSpace (List.dropWhile pyIsSpace l)
  have hlen : 0 < (List.dropWhile pyIsSpace l).length :=
    Nat.lt_of_lt_of_le hl hpre.length_le
  have hget : (List.rdropWhile pyIsSpace (List.dropWhile pyIsSpace l)).get ⟨0, hl⟩ =
      (List.dropWhile pyIsSpace l).get ⟨0, hlen⟩ := by
    simpa using hpre.getElem hl
  rw [hget]
  exact List.dropWhile_get_zero_not _ _ hlen

theorem stripChars_idem (l : List Char) :
    stripChars (stripChars l) = stripChars l := by
  have h := dropWhile_stripChars l
  unfold stripChars
  unfold stripChars at h
  rw [h, List.rdropWhile_idempotent]

theorem pyLower_clean (u : String) : pyLower (pyStrip (pyLower u)) = pyStrip (pyLower u) := by
  apply String.ext
  show (pyStrip (pyLower u)).data.map Char.toLower = (pyStrip (pyLower u)).data
  have hmem : ∀ c ∈ (pyStrip (pyLower u)).data, Char.toLower c = c := by
    intro c hc
    have hc' : c ∈ u.data.map Char.toLower := mem_stripChars hc
    obtain ⟨d, _, rfl⟩ := List.mem_map.mp hc'
    exact toLower_toLower d
  rw [List.map_congr_left hmem]
  simp

theorem pyStrip_clean (u : String) : pyStrip (pyStrip (pyLower u)) = pyStrip (pyLower u) := by
  apply String.ext
  show stripChars (stripChars (u.data.map Char.toLower)) = stripChars (u.data.map Char.toLower)
  exact stripChars_idem _

/-- C10 counterexample: the unit normalizer is not idempotent — a
whitespace-only unit token passes through as the empty string (it is not
falsy before stripping), but normalizing that empty string yields
`"servings"`. -/
theorem C10_cex :
    normalize_unit (normalize_unit " ") ≠ normalize_unit " " := by decide

/-- C10 amended: the unit normalizer is idempotent on every string that is
empty or has a nonempty lowercased-stripped form; in particular every
alias-table value and every nonempty pass-through output is a fixed point.
Only whitespace-only (but nonempty) tokens escape: they normalize to `""`,
which re-normalizes to `"servings"`. -/
theorem C10_thm (u : String) (h : pyStrip (pyLower u) ≠ "" ∨ u = "") :
    normalize_unit (normalize_unit u) = normalize_unit u := by
  rcases h with hne | hval
  · have hu : u ≠ "" := by
      intro h0
      subst h0
      exact hne (by decide)
    unfold normalize_unit
    rw [if_neg hu]
    dsimp only
    cases hl : lookupAlias (pyStrip (pyLower u)) with
    | some c =>
      have hmem : ∃ kv ∈ UNIT_ALIASES, kv.2 = c := by
        unfold lookupAlias at hl
        cases hf : UNIT_ALIASES.find? (fun kv => kv.1 == pyStrip (pyLower u)) with
        | none => rw [hf] at hl; cases hl
        | some kv =>
          rw [hf] at hl
          exact ⟨kv, List.mem_of_find?_eq_some hf, Option.some.inj hl⟩
      obtain ⟨kv, hkv, rfl⟩ := hmem
      have hvals : ∀ kv ∈ UNIT_ALIASES, normalize_unit kv.2 = kv.2 := by decide
      dsimp only [Option.getD]
      show normalize_unit kv.2 = kv.2
      exact hvals kv hkv
    | none =>
      dsimp only [Option.getD]
      rw [if_neg hne]
      have hstr : pyStrip (pyLower (pyStrip (pyLower u))) = pyStrip (pyLower u) := by
        rw [pyLower_clean, pyStrip_clean]
      rw [hstr, hl]
  · subst hval
    decide

/-- C10 witness: the amended idempotence applied to the alias `"Tbsp "`
(lowercased and stripped to `"tbsp"`, normalized to `"tablespoons"`). -/
theorem C10_wit :
    (pyStrip (pyLower "Tbsp ") ≠ "" ∨ "Tbsp " = "") ∧
    normalize_unit (normalize_unit "Tbsp ") = normalize_unit "Tbsp " :=
  ⟨Or.inl (by decide), C10_thm "Tbsp " (Or.inl (by decide))⟩

end NutriVision
